import Mathlib

/-!  Verification of the sales-bonus analysis pipeline.

The repository contains two JavaScript implementations of the same
pipeline: `src/main.js` and a second source file whose path is unknown.
Both are embedded below.  Definitions suffixed `_main` come from
`src/main.js`; the unsuffixed definitions come from the second file,
which is the implementation matching the written design document
(record-level revenue from `total_amount`, immediate bonus rounding,
strict option checks).  JavaScript numbers are modelled as rationals,
JS objects used as string-keyed dictionaries are modelled as
association lists in insertion order, and the stable `Array.prototype.sort`
is modelled by insertion sort, which is stable for the same comparator.
-/

structure Seller where
  id : String
  first_name : String
  last_name : String
  deriving DecidableEq

structure Product where
  sku : String
  purchase_price : ℚ
  deriving DecidableEq

structure PurchaseItem where
  sku : String
  quantity : ℚ
  sale_price : ℚ
  discount : ℚ
  deriving DecidableEq

structure PurchaseRecord where
  seller_id : String
  total_amount : ℚ
  items : List PurchaseItem
  deriving DecidableEq

structure Dataset where
  sellers : List Seller
  products : List Product
  purchase_records : List PurchaseRecord
  deriving DecidableEq

/-- The mutable per-seller accumulator built at pipeline start. -/
structure SellerStats where
  id : String
  name : String
  revenue : ℚ
  profit : ℚ
  sales_count : ℕ
  products_sold : List (String × ℚ)
  deriving DecidableEq

/-- One entry of the final report. -/
structure SellerReport where
  seller_id : String
  name : String
  revenue : ℚ
  profit : ℚ
  sales_count : ℕ
  top_products : List (String × ℚ)
  bonus : ℚ
  deriving DecidableEq

/-- Rounding to two decimal places, the model of `+x.toFixed(2)`. -/
def round2 (x : ℚ) : ℚ := (round (x * 100) : ℚ) / 100

/-- The reference revenue strategy `calculateSimpleRevenue` of the source. -/
def calculateSimpleRevenue (purchase : PurchaseItem) (_product : Product) : ℚ :=
  purchase.sale_price * purchase.quantity * (1 - purchase.discount / 100)

/-- The reference bonus strategy `calculateBonusByProfit` of the source.
Both source files implement the same first-match rank rules. -/
def calculateBonusByProfit (index total : ℕ) (seller : SellerStats) : ℚ :=
  if index = 0 then seller.profit * (15 / 100)
  else if index = 1 ∨ index = 2 then seller.profit * (10 / 100)
  else if index = total - 1 then 0
  else seller.profit * (5 / 100)

/-- Fresh zeroed accumulators, one per input seller, in input order. -/
def initStats (sellers : List Seller) : List SellerStats :=
  sellers.map fun s =>
    { id := s.id, name := s.first_name ++ " " ++ s.last_name,
      revenue := 0, profit := 0, sales_count := 0, products_sold := [] }

/-- Lookup in the product index.  The JS object index maps each sku to
the last product having that sku, so the reversed list is searched. -/
def lookupProduct (products : List Product) (sku : String) : Option Product :=
  products.reverse.find? fun p => p.sku == sku

/-- Whether the seller index resolves the given id. -/
def hasSellerId (stats : List SellerStats) (sid : String) : Bool :=
  stats.any fun s => s.id == sid

/-- Applies `f` to the last element whose id is `sid`, mirroring mutation
through the JS seller index, in which the last stats object with a given
id wins when the index is built. -/
def updateLastWith (sid : String) (f : SellerStats → SellerStats) :
    List SellerStats → List SellerStats
  | [] => []
  | s :: rest =>
    if hasSellerId rest sid then s :: updateLastWith sid f rest
    else if s.id == sid then f s :: rest
    else s :: rest

/-- Adds a quantity to the per-sku dictionary, creating the entry at 0
if absent; an existing key keeps its position, a new key goes last. -/
def addQty (ps : List (String × ℚ)) (sku : String) (q : ℚ) : List (String × ℚ) :=
  match ps with
  | [] => [(sku, q)]
  | (k, v) :: rest => if k == sku then (k, v + q) :: rest else (k, v) :: addQty rest sku q

/-- One line item, second source file: the strategy result feeds only
profit; the per-sku quantities are accumulated.  Unknown sku is skipped. -/
def applyItem (products : List Product) (calculateRevenue : PurchaseItem → Product → ℚ)
    (s : SellerStats) (item : PurchaseItem) : SellerStats :=
  match lookupProduct products item.sku with
  | none => s
  | some product =>
    let cost := product.purchase_price * item.quantity
    let revenueItem := calculateRevenue item product
    { s with profit := s.profit + (revenueItem - cost),
             products_sold := addQty s.products_sold item.sku item.quantity }

/-- One purchase record, second source file: the sale counter is
incremented, `total_amount` is added to revenue, then the items run. -/
def applyRecord (products : List Product) (calculateRevenue : PurchaseItem → Product → ℚ)
    (r : PurchaseRecord) (s : SellerStats) : SellerStats :=
  r.items.foldl (applyItem products calculateRevenue)
    { s with sales_count := s.sales_count + 1, revenue := s.revenue + r.total_amount }

/-- One line item, `src/main.js`: the strategy result is added to the
seller revenue as well as feeding profit. -/
def applyItem_main (products : List Product) (calculateRevenue : PurchaseItem → Product → ℚ)
    (s : SellerStats) (item : PurchaseItem) : SellerStats :=
  match lookupProduct products item.sku with
  | none => s
  | some product =>
    let cost := product.purchase_price * item.quantity
    let revenueItem := calculateRevenue item product
    { s with revenue := s.revenue + revenueItem,
             profit := s.profit + (revenueItem - cost),
             products_sold := addQty s.products_sold item.sku item.quantity }

/-- One purchase record, `src/main.js`: `total_amount` is never read. -/
def applyRecord_main (products : List Product) (calculateRevenue : PurchaseItem → Product → ℚ)
    (r : PurchaseRecord) (s : SellerStats) : SellerStats :=
  r.items.foldl (applyItem_main products calculateRevenue)
    { s with sales_count := s.sales_count + 1 }

/-- One step of the record loop: a record whose seller id does not
resolve is skipped entirely. -/
def aggregateStep (step : PurchaseRecord → SellerStats → SellerStats)
    (st : List SellerStats) (r : PurchaseRecord) : List SellerStats :=
  if hasSellerId st r.seller_id then updateLastWith r.seller_id (step r) st else st

/-- The record loop, parametric in the per-record effect. -/
def aggregateWith (step : PurchaseRecord → SellerStats → SellerStats)
    (stats : List SellerStats) (records : List PurchaseRecord) : List SellerStats :=
  records.foldl (aggregateStep step) stats

/-- Aggregation of the second source file. -/
def aggregate (products : List Product) (calculateRevenue : PurchaseItem → Product → ℚ)
    (stats : List SellerStats) (records : List PurchaseRecord) : List SellerStats :=
  aggregateWith (applyRecord products calculateRevenue) stats records

/-- Aggregation of `src/main.js`. -/
def aggregate_main (products : List Product) (calculateRevenue : PurchaseItem → Product → ℚ)
    (stats : List SellerStats) (records : List PurchaseRecord) : List SellerStats :=
  aggregateWith (applyRecord_main products calculateRevenue) stats records

/-- Comparator of the seller sort: descending by profit. -/
def profGE (a b : SellerStats) : Prop := b.profit ≤ a.profit

instance : DecidableRel profGE := fun a b => inferInstanceAs (Decidable (b.profit ≤ a.profit))

instance : IsTotal SellerStats profGE := ⟨fun a b => le_total b.profit a.profit⟩

instance : IsTrans SellerStats profGE := ⟨fun _ _ _ hab hbc => le_trans hbc hab⟩

/-- The stable sort of the seller accumulators by profit, descending. -/
def sortByProfitDesc (stats : List SellerStats) : List SellerStats :=
  List.insertionSort profGE stats

/-- Comparator of the product list: descending by quantity. -/
def qtyGE (a b : String × ℚ) : Prop := b.2 ≤ a.2

instance : DecidableRel qtyGE := fun a b => inferInstanceAs (Decidable (b.2 ≤ a.2))

instance : IsTotal (String × ℚ) qtyGE := ⟨fun a b => le_total b.2 a.2⟩

instance : IsTrans (String × ℚ) qtyGE := ⟨fun _ _ _ hab hbc => le_trans hbc hab⟩

/-- All per-sku pairs sorted by quantity descending, first ten kept. -/
def topProducts (ps : List (String × ℚ)) : List (String × ℚ) :=
  (List.insertionSort qtyGE ps).take 10

/-- The bonus and top-products pass of the second source file: the raw
strategy result is rounded to 2 decimals at assignment time. -/
def rankStageAux (calculateBonus : ℕ → ℕ → SellerStats → ℚ) (total : ℕ) :
    ℕ → List SellerStats → List (SellerStats × ℚ × List (String × ℚ))
  | _, [] => []
  | i, s :: rest =>
    (s, round2 (calculateBonus i total s), topProducts s.products_sold) ::
      rankStageAux calculateBonus total (i + 1) rest

def rankStage (calculateBonus : ℕ → ℕ → SellerStats → ℚ)
    (sorted : List SellerStats) : List (SellerStats × ℚ × List (String × ℚ)) :=
  rankStageAux calculateBonus sorted.length 0 sorted

/-- The bonus and top-products pass of `src/main.js`: the raw strategy
result is stored without rounding. -/
def rankStageAux_main (calculateBonus : ℕ → ℕ → SellerStats → ℚ) (total : ℕ) :
    ℕ → List SellerStats → List (SellerStats × ℚ × List (String × ℚ))
  | _, [] => []
  | i, s :: rest =>
    (s, calculateBonus i total s, topProducts s.products_sold) ::
      rankStageAux_main calculateBonus total (i + 1) rest

def rankStage_main (calculateBonus : ℕ → ℕ → SellerStats → ℚ)
    (sorted : List SellerStats) : List (SellerStats × ℚ × List (String × ℚ)) :=
  rankStageAux_main calculateBonus sorted.length 0 sorted

/-- The final report: monetary fields rounded to 2 decimal places. -/
def reportStage (l : List (SellerStats × ℚ × List (String × ℚ))) : List SellerReport :=
  l.map fun t =>
    { seller_id := t.1.id, name := t.1.name, revenue := round2 t.1.revenue,
      profit := round2 t.1.profit, sales_count := t.1.sales_count,
      top_products := t.2.2, bonus := round2 t.2.1 }

/-- The whole pipeline past validation, second source file. -/
def analyzeValid (data : Dataset) (calculateRevenue : PurchaseItem → Product → ℚ)
    (calculateBonus : ℕ → ℕ → SellerStats → ℚ) : List SellerReport :=
  reportStage (rankStage calculateBonus (sortByProfitDesc
    (aggregate data.products calculateRevenue (initStats data.sellers) data.purchase_records)))

/-- The whole pipeline past validation, `src/main.js`. -/
def analyzeValid_main (data : Dataset) (calculateRevenue : PurchaseItem → Product → ℚ)
    (calculateBonus : ℕ → ℕ → SellerStats → ℚ) : List SellerReport :=
  reportStage (rankStage_main calculateBonus (sortByProfitDesc
    (aggregate_main data.products calculateRevenue (initStats data.sellers) data.purchase_records)))

/-! ## Validation layer

JS dynamic values are modelled just finely enough for the checks the two
validators perform: a dataset field is either a real array or not one, an
options value is falsy, a truthy non-object, or an object, and a strategy
slot is falsy, a truthy non-function, or an actual function. -/

abbrev RevenueFn := PurchaseItem → Product → ℚ

abbrev BonusFn := ℕ → ℕ → SellerStats → ℚ

inductive JSError where
  | InvalidInput
  | MissingOptions
  | MissingStrategy
  deriving DecidableEq

/-- A possibly malformed dataset: `none` in a field stands for an absent
or non-array value. -/
structure RawDataset where
  sellers : Option (List Seller)
  products : Option (List Product)
  purchase_records : Option (List PurchaseRecord)

/-- A strategy slot of the options object. -/
inductive StrategyVal (α : Type) where
  | missing
  | notInvokable
  | fn (f : α)

/-- The options argument: falsy, truthy non-object, or object. -/
inductive OptionsVal (ρ β : Type) where
  | absent
  | notObject
  | object (calculateRevenue : StrategyVal ρ) (calculateBonus : StrategyVal β)

def listFieldBad {α : Type} : Option (List α) → Bool
  | none => true
  | some l => l.isEmpty

/-- The dataset shape check shared by both source files. -/
def datasetBad : Option RawDataset → Bool
  | none => true
  | some d => listFieldBad d.sellers || listFieldBad d.products || listFieldBad d.purchase_records

/-- Falsiness of a strategy slot, the `src/main.js` test. -/
def strategyFalsy {α : Type} : StrategyVal α → Bool
  | .missing => true
  | _ => false

/-- Invokability of a strategy slot, the stricter test of the second file. -/
def strategyIsFn {α : Type} : StrategyVal α → Bool
  | .fn _ => true
  | _ => false

/-- The validation phase of the second source file: a truthy non-object
options value is rejected as missing options, and each strategy must be
an actual function. -/
def validate_part {ρ β : Type} (d : Option RawDataset) (o : OptionsVal ρ β) : Option JSError :=
  if datasetBad d then some .InvalidInput
  else match o with
  | .absent => some .MissingOptions
  | .notObject => some .MissingOptions
  | .object cr cb =>
    if strategyIsFn cr && strategyIsFn cb then none else some .MissingStrategy

/-- The validation phase of `src/main.js`: only falsiness is tested, so a
truthy non-object options value slips past the options check and fails
the strategy check instead, and a truthy non-function strategy passes
validation entirely. -/
def validate_main {ρ β : Type} (d : Option RawDataset) (o : OptionsVal ρ β) : Option JSError :=
  if datasetBad d then some .InvalidInput
  else match o with
  | .absent => some .MissingOptions
  | .notObject => some .MissingStrategy
  | .object cr cb =>
    if strategyFalsy cr || strategyFalsy cb then some .MissingStrategy else none

/-- The full entry point of the second source file. -/
def analyzeSalesData (d : Option RawDataset) (o : OptionsVal RevenueFn BonusFn) :
    Except JSError (List SellerReport) :=
  if datasetBad d then .error .InvalidInput
  else match o with
  | .absent => .error .MissingOptions
  | .notObject => .error .MissingOptions
  | .object (.fn f) (.fn g) =>
    match d with
    | some dd =>
      match dd.sellers, dd.products, dd.purchase_records with
      | some sellers, some products, some records =>
        .ok (analyzeValid ⟨sellers, products, records⟩ f g)
      | _, _, _ => .error .InvalidInput
    | none => .error .InvalidInput
  | .object _ _ => .error .MissingStrategy

/-- Follows the wording of the specification contract (section 4.1):
`InvalidInput` when the dataset is absent or a collection field is not a
non-empty array, else `MissingOptions` when options is absent or not an
object, else `MissingStrategy` when either strategy is absent or not
invokable, else no failure. -/
def specValidate {ρ β : Type} (d : Option RawDataset) (o : OptionsVal ρ β) : Option JSError :=
  if datasetBad d then some .InvalidInput
  else match o with
  | .absent => some .MissingOptions
  | .notObject => some .MissingOptions
  | .object cr cb =>
    if strategyIsFn cr && strategyIsFn cb then none else some .MissingStrategy

/-- The error observed of a run, `none` when a report is returned. -/
def errorOf {α : Type} : Except JSError α → Option JSError
  | .error e => some e
  | .ok _ => none

/-! ## Concrete example values used by witnesses and counterexamples -/

def exSeller : Seller := { id := "s1", first_name := "Ann", last_name := "Lee" }

def exProduct : Product := { sku := "p1", purchase_price := 1 }

def exItem : PurchaseItem := { sku := "p1", quantity := 1, sale_price := 7, discount := 0 }

def exRecord : PurchaseRecord := { seller_id := "s1", total_amount := 100, items := [exItem] }

def exData : Dataset :=
  { sellers := [exSeller], products := [exProduct], purchase_records := [exRecord] }

def exRaw : RawDataset :=
  { sellers := some [exSeller], products := some [exProduct],
    purchase_records := some [exRecord] }

def exStats0 : SellerStats :=
  { id := "s1", name := "Ann Lee", revenue := 0, profit := 10,
    sales_count := 0, products_sold := [] }

/-! ## Helper lemmas -/

theorem round2_round2 (x : ℚ) : round2 (round2 x) = round2 x := by
  unfold round2
  rw [div_mul_cancel₀ _ (by norm_num : (100:ℚ) ≠ 0), round_intCast]

theorem round2_mono {x y : ℚ} (h : x ≤ y) : round2 x ≤ round2 y := by
  unfold round2
  have h1 : round (x * 100) ≤ round (y * 100) := by
    rw [round_eq, round_eq]
    exact Int.floor_le_floor (by linarith)
  have h2 : ((round (x * 100) : ℤ) : ℚ) ≤ ((round (y * 100) : ℤ) : ℚ) := by
    exact_mod_cast h1
  linarith

theorem applyItem_fixed (products : List Product) (cr : PurchaseItem → Product → ℚ)
    (s : SellerStats) (it : PurchaseItem) :
    (applyItem products cr s it).id = s.id ∧
    (applyItem products cr s it).name = s.name ∧
    (applyItem products cr s it).sales_count = s.sales_count ∧
    (applyItem products cr s it).revenue = s.revenue := by
  cases h : lookupProduct products it.sku <;> simp [applyItem, h]

theorem foldl_applyItem_fixed (products : List Product) (cr : PurchaseItem → Product → ℚ)
    (items : List PurchaseItem) :
    ∀ s : SellerStats,
      ((items.foldl (applyItem products cr) s).id = s.id ∧
       (items.foldl (applyItem products cr) s).name = s.name ∧
       (items.foldl (applyItem products cr) s).sales_count = s.sales_count ∧
       (items.foldl (applyItem products cr) s).revenue = s.revenue) := by
  induction items with
  | nil => exact fun s => ⟨rfl, rfl, rfl, rfl⟩
  | cons it items ih =>
    intro s
    simp only [List.foldl_cons]
    obtain ⟨h1, h2, h3, h4⟩ := applyItem_fixed products cr s it
    obtain ⟨g1, g2, g3, g4⟩ := ih (applyItem products cr s it)
    exact ⟨g1.trans h1, g2.trans h2, g3.trans h3, g4.trans h4⟩

theorem applyRecord_obs (products : List Product) (cr : PurchaseItem → Product → ℚ)
    (r : PurchaseRecord) (s : SellerStats) :
    (applyRecord products cr r s).id = s.id ∧
    (applyRecord products cr r s).name = s.name ∧
    (applyRecord products cr r s).sales_count = s.sales_count + 1 ∧
    (applyRecord products cr r s).revenue = s.revenue + r.total_amount := by
  unfold applyRecord
  obtain ⟨h1, h2, h3, h4⟩ := foldl_applyItem_fixed products cr r.items
    { s with sales_count := s.sales_count + 1, revenue := s.revenue + r.total_amount }
  exact ⟨h1, h2, h3, h4⟩

theorem updateLastWith_map_id (sid : String) (f : SellerStats → SellerStats)
    (hf : ∀ s, (f s).id = s.id) :
    ∀ l : List SellerStats,
      (updateLastWith sid f l).map SellerStats.id = l.map SellerStats.id := by
  intro l
  induction l with
  | nil => rfl
  | cons s rest ih =>
    unfold updateLastWith
    by_cases h : hasSellerId rest sid = true
    · simp [h, ih]
    · simp only [h, Bool.false_eq_true, if_false]
      by_cases h2 : (s.id == sid) = true
      · simp [h2, hf]
      · simp [h2]

/-- Total number of sales recorded across a stats list. -/
def salesSum (l : List SellerStats) : ℕ := (l.map SellerStats.sales_count).sum

theorem updateLastWith_salesSum (sid : String) (f : SellerStats → SellerStats)
    (hf : ∀ s, (f s).sales_count = s.sales_count + 1) :
    ∀ l : List SellerStats, hasSellerId l sid = true →
      salesSum (updateLastWith sid f l) = salesSum l + 1 := by
  intro l
  induction l with
  | nil => intro h; simp [hasSellerId] at h
  | cons s rest ih =>
    intro h
    unfold updateLastWith
    by_cases h1 : hasSellerId rest sid = true
    · simp only [h1, if_true]
      have := ih h1
      simp only [salesSum, List.map_cons, List.sum_cons] at *
      omega
    · have h2 : (s.id == sid) = true := by
        have hcons : hasSellerId (s :: rest) sid = ((s.id == sid) || hasSellerId rest sid) := by
          simp [hasSellerId]
        rw [hcons] at h
        rcases Bool.or_eq_true_iff.mp h with h' | h'
        · exact h'
        · exact absurd h' h1
      simp only [h1, Bool.false_eq_true, if_false, h2, if_true]
      simp [salesSum, hf]
      omega

theorem hasSellerId_eq_any_map (l : List SellerStats) (sid : String) :
    hasSellerId l sid = (l.map SellerStats.id).any fun i => i == sid := by
  induction l with
  | nil => rfl
  | cons s rest ih =>
    unfold hasSellerId at ih ⊢
    rw [List.map_cons, List.any_cons, List.any_cons, ih]

theorem hasSellerId_eq_of_map_id {l l' : List SellerStats}
    (h : l.map SellerStats.id = l'.map SellerStats.id) (sid : String) :
    hasSellerId l sid = hasSellerId l' sid := by
  rw [hasSellerId_eq_any_map, hasSellerId_eq_any_map, h]

theorem aggregateWith_map_id (step : PurchaseRecord → SellerStats → SellerStats)
    (hstep : ∀ r s, (step r s).id = s.id) (records : List PurchaseRecord) :
    ∀ stats : List SellerStats,
      (aggregateWith step stats records).map SellerStats.id = stats.map SellerStats.id := by
  induction records with
  | nil => intro stats; rfl
  | cons r rest ih =>
    intro stats
    show (aggregateWith step (aggregateStep step stats r) rest).map SellerStats.id = _
    rw [ih]
    unfold aggregateStep
    by_cases h : hasSellerId stats r.seller_id = true
    · simp only [h, if_true]
      exact updateLastWith_map_id _ _ (hstep r) stats
    · simp [h]

theorem aggregateWith_salesSum (step : PurchaseRecord → SellerStats → SellerStats)
    (hid : ∀ r s, (step r s).id = s.id)
    (hsc : ∀ r s, (step r s).sales_count = s.sales_count + 1)
    (records : List PurchaseRecord) :
    ∀ stats : List SellerStats,
      salesSum (aggregateWith step stats records) =
        salesSum stats + records.countP (fun r => hasSellerId stats r.seller_id) := by
  induction records with
  | nil => intro stats; simp [aggregateWith]
  | cons r rest ih =>
    intro stats
    show salesSum (aggregateWith step (aggregateStep step stats r) rest) = _
    rw [ih]
    unfold aggregateStep
    by_cases h : hasSellerId stats r.seller_id = true
    · simp only [h, if_true]
      rw [updateLastWith_salesSum _ _ (hsc r) stats h]
      have hmap := updateLastWith_map_id r.seller_id (step r) (hid r) stats
      have hcount : rest.countP
          (fun r2 => hasSellerId (updateLastWith r.seller_id (step r) stats) r2.seller_id) =
          rest.countP (fun r2 => hasSellerId stats r2.seller_id) := by
        apply List.countP_congr
        intro r2 _
        rw [hasSellerId_eq_of_map_id hmap]
      rw [hcount, List.countP_cons, h]
      simp
      omega
    · simp only [h, Bool.false_eq_true, if_false]
      rw [List.countP_cons]
      simp [h]

theorem rankStageAux_fst (g : ℕ → ℕ → SellerStats → ℚ) (total : ℕ) :
    ∀ (i : ℕ) (l : List SellerStats),
      (rankStageAux g total i l).map (fun t => t.1) = l := by
  intro i l
  induction l generalizing i with
  | nil => rfl
  | cons s rest ih => simp [rankStageAux, ih]

theorem rankStage_fst (g : ℕ → ℕ → SellerStats → ℚ) (l : List SellerStats) :
    (rankStage g l).map (fun t => t.1) = l :=
  rankStageAux_fst g l.length 0 l

theorem rankStageAux_top (g : ℕ → ℕ → SellerStats → ℚ) (total : ℕ) :
    ∀ (i : ℕ) (l : List SellerStats),
      (rankStageAux g total i l).map (fun t => t.2.2) =
        l.map fun s => topProducts s.products_sold := by
  intro i l
  induction l generalizing i with
  | nil => rfl
  | cons s rest ih => simp [rankStageAux, ih]

theorem rankStageAux_bonus (g : ℕ → ℕ → SellerStats → ℚ) (total : ℕ) :
    ∀ (i : ℕ) (l : List SellerStats),
      (rankStageAux g total i l).map (fun t => round2 t.2.1) =
        (rankStageAux g total i l).map (fun t => t.2.1) := by
  intro i l
  induction l generalizing i with
  | nil => rfl
  | cons s rest ih => simp [rankStageAux, ih, round2_round2]

theorem reportStage_map_seller_id (l : List (SellerStats × ℚ × List (String × ℚ))) :
    (reportStage l).map SellerReport.seller_id = l.map fun t => t.1.id := by
  simp [reportStage]

theorem reportStage_map_profit (l : List (SellerStats × ℚ × List (String × ℚ))) :
    (reportStage l).map SellerReport.profit = l.map fun t => round2 t.1.profit := by
  simp [reportStage]

theorem reportStage_map_revenue (l : List (SellerStats × ℚ × List (String × ℚ))) :
    (reportStage l).map SellerReport.revenue = l.map fun t => round2 t.1.revenue := by
  simp [reportStage]

theorem reportStage_map_sales (l : List (SellerStats × ℚ × List (String × ℚ))) :
    (reportStage l).map SellerReport.sales_count = l.map fun t => t.1.sales_count := by
  simp [reportStage]

theorem reportStage_map_top (l : List (SellerStats × ℚ × List (String × ℚ))) :
    (reportStage l).map SellerReport.top_products = l.map fun t => t.2.2 := by
  simp [reportStage]

theorem reportStage_map_bonus (l : List (SellerStats × ℚ × List (String × ℚ))) :
    (reportStage l).map SellerReport.bonus = l.map fun t => round2 t.2.1 := by
  simp [reportStage]

theorem map_comp_fst {β : Type} (l : List (SellerStats × ℚ × List (String × ℚ)))
    (f : SellerStats → β) :
    l.map (fun t => f t.1) = (l.map fun t => t.1).map f := by
  simp [List.map_map, Function.comp]

theorem filter_orderedInsert_pos {α : Type} (r : α → α → Prop) [DecidableRel r]
    (p : α → Bool) (a : α) (ha : p a = true)
    (hskip : ∀ b, ¬ r a b → p b = false) :
    ∀ l : List α, (List.orderedInsert r a l).filter p = a :: l.filter p := by
  intro l
  induction l with
  | nil => simp [List.orderedInsert, ha]
  | cons b l ih =>
    by_cases h : r a b
    · rw [List.orderedInsert, if_pos h, List.filter_cons, ha]
      simp
    · rw [List.orderedInsert, if_neg h, List.filter_cons, hskip b h, List.filter_cons, hskip b h]
      simp only [Bool.false_eq_true, if_false]
      exact ih

theorem filter_orderedInsert_neg {α : Type} (r : α → α → Prop) [DecidableRel r]
    (p : α → Bool) (a : α) (ha : p a = false) :
    ∀ l : List α, (List.orderedInsert r a l).filter p = l.filter p := by
  intro l
  induction l with
  | nil => simp [List.orderedInsert, ha]
  | cons b l ih =>
    by_cases h : r a b
    · rw [List.orderedInsert, if_pos h, List.filter_cons, ha]
      simp
    · rw [List.orderedInsert, if_neg h, List.filter_cons, List.filter_cons]
      cases hb : p b <;> simp [ih]

theorem filter_insertionSort_eq {α : Type} (r : α → α → Prop) [DecidableRel r]
    (p : α → Bool) (hskip : ∀ a b, p a = true → ¬ r a b → p b = false) :
    ∀ l : List α, (List.insertionSort r l).filter p = l.filter p := by
  intro l
  induction l with
  | nil => rfl
  | cons a l ih =>
    rw [List.insertionSort]
    by_cases ha : p a = true
    · rw [filter_orderedInsert_pos r p a ha (fun b => hskip a b ha), ih, List.filter_cons, ha]
      simp
    · have ha' : p a = false := by revert ha; cases p a <;> simp
      rw [filter_orderedInsert_neg r p a ha', ih, List.filter_cons, ha']
      simp

theorem initStats_map_id (sellers : List Seller) :
    (initStats sellers).map SellerStats.id = sellers.map Seller.id := by
  simp [initStats, List.map_map, Function.comp]

theorem aggregate_map_id (products : List Product) (cr : PurchaseItem → Product → ℚ)
    (stats : List SellerStats) (records : List PurchaseRecord) :
    (aggregate products cr stats records).map SellerStats.id = stats.map SellerStats.id :=
  aggregateWith_map_id _ (fun r s => (applyRecord_obs products cr r s).1) records stats

theorem sortByProfitDesc_perm (stats : List SellerStats) :
    (sortByProfitDesc stats).Perm stats :=
  List.perm_insertionSort profGE stats

theorem sortByProfitDesc_sorted (stats : List SellerStats) :
    List.Sorted profGE (sortByProfitDesc stats) :=
  List.sorted_insertionSort profGE stats

theorem rankStage_top (g : ℕ → ℕ → SellerStats → ℚ) (l : List SellerStats) :
    (rankStage g l).map (fun t => t.2.2) = l.map fun s => topProducts s.products_sold :=
  rankStageAux_top g l.length 0 l

theorem analyzeValid_map_seller_id (data : Dataset) (cr : PurchaseItem → Product → ℚ)
    (cb : ℕ → ℕ → SellerStats → ℚ) :
    (analyzeValid data cr cb).map SellerReport.seller_id =
      (sortByProfitDesc (aggregate data.products cr (initStats data.sellers)
        data.purchase_records)).map SellerStats.id := by
  unfold analyzeValid
  rw [reportStage_map_seller_id, map_comp_fst _ SellerStats.id, rankStage_fst]

theorem analyzeValid_map_profit (data : Dataset) (cr : PurchaseItem → Product → ℚ)
    (cb : ℕ → ℕ → SellerStats → ℚ) :
    (analyzeValid data cr cb).map SellerReport.profit =
      (sortByProfitDesc (aggregate data.products cr (initStats data.sellers)
        data.purchase_records)).map fun s => round2 s.profit := by
  unfold analyzeValid
  rw [reportStage_map_profit, map_comp_fst _ (fun s => round2 s.profit), rankStage_fst]

theorem analyzeValid_map_sales (data : Dataset) (cr : PurchaseItem → Product → ℚ)
    (cb : ℕ → ℕ → SellerStats → ℚ) :
    (analyzeValid data cr cb).map SellerReport.sales_count =
      (sortByProfitDesc (aggregate data.products cr (initStats data.sellers)
        data.purchase_records)).map SellerStats.sales_count := by
  unfold analyzeValid
  rw [reportStage_map_sales, map_comp_fst _ SellerStats.sales_count, rankStage_fst]

theorem analyzeValid_map_top (data : Dataset) (cr : PurchaseItem → Product → ℚ)
    (cb : ℕ → ℕ → SellerStats → ℚ) :
    (analyzeValid data cr cb).map SellerReport.top_products =
      (sortByProfitDesc (aggregate data.products cr (initStats data.sellers)
        data.purchase_records)).map fun s => topProducts s.products_sold := by
  unfold analyzeValid
  rw [reportStage_map_top, rankStage_top]

theorem applyItem_main_fixed (products : List Product) (cr : PurchaseItem → Product → ℚ)
    (s : SellerStats) (it : PurchaseItem) :
    (applyItem_main products cr s it).id = s.id ∧
    (applyItem_main products cr s it).name = s.name ∧
    (applyItem_main products cr s it).sales_count = s.sales_count := by
  cases h : lookupProduct products it.sku <;> simp [applyItem_main, h]

theorem foldl_applyItem_main_fixed (products : List Product)
    (cr : PurchaseItem → Product → ℚ) (items : List PurchaseItem) :
    ∀ s : SellerStats,
      ((items.foldl (applyItem_main products cr) s).id = s.id ∧
       (items.foldl (applyItem_main products cr) s).name = s.name ∧
       (items.foldl (applyItem_main products cr) s).sales_count = s.sales_count) := by
  induction items with
  | nil => exact fun s => ⟨rfl, rfl, rfl⟩
  | cons it items ih =>
    intro s
    simp only [List.foldl_cons]
    obtain ⟨h1, h2, h3⟩ := applyItem_main_fixed products cr s it
    obtain ⟨g1, g2, g3⟩ := ih (applyItem_main products cr s it)
    exact ⟨g1.trans h1, g2.trans h2, g3.trans h3⟩

theorem applyRecord_main_obs (products : List Product) (cr : PurchaseItem → Product → ℚ)
    (r : PurchaseRecord) (s : SellerStats) :
    (applyRecord_main products cr r s).id = s.id ∧
    (applyRecord_main products cr r s).name = s.name ∧
    (applyRecord_main products cr r s).sales_count = s.sales_count + 1 := by
  unfold applyRecord_main
  obtain ⟨h1, h2, h3⟩ := foldl_applyItem_main_fixed products cr r.items
    { s with sales_count := s.sales_count + 1 }
  exact ⟨h1, h2, h3⟩

theorem aggregate_main_map_id (products : List Product) (cr : PurchaseItem → Product → ℚ)
    (stats : List SellerStats) (records : List PurchaseRecord) :
    (aggregate_main products cr stats records).map SellerStats.id =
      stats.map SellerStats.id :=
  aggregateWith_map_id _ (fun r s => (applyRecord_main_obs products cr r s).1) records stats

theorem rankStageAux_main_fst (g : ℕ → ℕ → SellerStats → ℚ) (total : ℕ) :
    ∀ (i : ℕ) (l : List SellerStats),
      (rankStageAux_main g total i l).map (fun t => t.1) = l := by
  intro i l
  induction l generalizing i with
  | nil => rfl
  | cons s rest ih => simp [rankStageAux_main, ih]

theorem rankStage_main_fst (g : ℕ → ℕ → SellerStats → ℚ) (l : List SellerStats) :
    (rankStage_main g l).map (fun t => t.1) = l :=
  rankStageAux_main_fst g l.length 0 l

theorem rankStageAux_main_top (g : ℕ → ℕ → SellerStats → ℚ) (total : ℕ) :
    ∀ (i : ℕ) (l : List SellerStats),
      (rankStageAux_main g total i l).map (fun t => t.2.2) =
        l.map fun s => topProducts s.products_sold := by
  intro i l
  induction l generalizing i with
  | nil => rfl
  | cons s rest ih => simp [rankStageAux_main, ih]

theorem rankStage_main_top (g : ℕ → ℕ → SellerStats → ℚ) (l : List SellerStats) :
    (rankStage_main g l).map (fun t => t.2.2) = l.map fun s => topProducts s.products_sold :=
  rankStageAux_main_top g l.length 0 l

theorem analyzeValid_main_map_seller_id (data : Dataset) (cr : PurchaseItem → Product → ℚ)
    (cb : ℕ → ℕ → SellerStats → ℚ) :
    (analyzeValid_main data cr cb).map SellerReport.seller_id =
      (sortByProfitDesc (aggregate_main data.products cr (initStats data.sellers)
        data.purchase_records)).map SellerStats.id := by
  unfold analyzeValid_main
  rw [reportStage_map_seller_id, map_comp_fst _ SellerStats.id, rankStage_main_fst]

theorem analyzeValid_main_map_profit (data : Dataset) (cr : PurchaseItem → Product → ℚ)
    (cb : ℕ → ℕ → SellerStats → ℚ) :
    (analyzeValid_main data cr cb).map SellerReport.profit =
      (sortByProfitDesc (aggregate_main data.products cr (initStats data.sellers)
        data.purchase_records)).map fun s => round2 s.profit := by
  unfold analyzeValid_main
  rw [reportStage_map_profit, map_comp_fst _ (fun s => round2 s.profit), rankStage_main_fst]

theorem analyzeValid_main_map_sales (data : Dataset) (cr : PurchaseItem → Product → ℚ)
    (cb : ℕ → ℕ → SellerStats → ℚ) :
    (analyzeValid_main data cr cb).map SellerReport.sales_count =
      (sortByProfitDesc (aggregate_main data.products cr (initStats data.sellers)
        data.purchase_records)).map SellerStats.sales_count := by
  unfold analyzeValid_main
  rw [reportStage_map_sales, map_comp_fst _ SellerStats.sales_count, rankStage_main_fst]

theorem analyzeValid_main_map_top (data : Dataset) (cr : PurchaseItem → Product → ℚ)
    (cb : ℕ → ℕ → SellerStats → ℚ) :
    (analyzeValid_main data cr cb).map SellerReport.top_products =
      (sortByProfitDesc (aggregate_main data.products cr (initStats data.sellers)
        data.purchase_records)).map fun s => topProducts s.products_sold := by
  unfold analyzeValid_main
  rw [reportStage_map_top, rankStage_main_top]

theorem sortByProfitDesc_filter_profit (X : List SellerStats) (q : ℚ) :
    (sortByProfitDesc X).filter (fun s => decide (s.profit = q)) =
      X.filter fun s => decide (s.profit = q) := by
  apply filter_insertionSort_eq
  intro a b ha hr
  have ha' : a.profit = q := of_decide_eq_true ha
  have hb : q < b.profit := by
    have := lt_of_not_le hr
    rw [ha'] at this
    exact this
  exact decide_eq_false (by intro he; rw [he] at hb; exact lt_irrefl q hb)

theorem sortByProfitDesc_round2_pairwise (X : List SellerStats) :
    ((sortByProfitDesc X).map fun s => round2 s.profit).Pairwise (fun a b => b ≤ a) :=
  List.Pairwise.map _ (fun _ _ h => round2_mono h) (sortByProfitDesc_sorted X)

/-! ## Claims -/

/-- Claim C6: the reference bonus strategy evaluates the rank rules
first-match in the order first, then second-or-third, then last: rank 0
yields 15 percent of profit for every total (so with total 1 the sole
seller gets 15 percent, the first-rank rule winning over the last-rank
rule), ranks 1 and 2 yield 10 percent, the last rank yields 0 when not
matched earlier, every other rank yields 5 percent, and with total 4 the
bonus fractions by rank are exactly [0.15, 0.10, 0.10, 0.00]. -/
theorem C6_bonus_rank_rules :
    (∀ (s : SellerStats) (total : ℕ),
        calculateBonusByProfit 0 total s = s.profit * (15 / 100)) ∧
    (∀ (s : SellerStats) (total i : ℕ), i = 1 ∨ i = 2 →
        calculateBonusByProfit i total s = s.profit * (10 / 100)) ∧
    (∀ (s : SellerStats) (total i : ℕ), i ≠ 0 → i ≠ 1 → i ≠ 2 → i = total - 1 →
        calculateBonusByProfit i total s = 0) ∧
    (∀ (s : SellerStats) (total i : ℕ), i ≠ 0 → i ≠ 1 → i ≠ 2 → i ≠ total - 1 →
        calculateBonusByProfit i total s = s.profit * (5 / 100)) ∧
    (∀ s : SellerStats, calculateBonusByProfit 0 1 s = s.profit * (15 / 100)) ∧
    (∀ s : SellerStats,
        [calculateBonusByProfit 0 4 s, calculateBonusByProfit 1 4 s,
         calculateBonusByProfit 2 4 s, calculateBonusByProfit 3 4 s] =
          [s.profit * (15 / 100), s.profit * (10 / 100), s.profit * (10 / 100), 0]) := by
  refine ⟨?_, ?_, ?_, ?_, ?_, ?_⟩
  · intro s total; simp [calculateBonusByProfit]
  · rintro s total i (rfl | rfl) <;> simp [calculateBonusByProfit]
  · intro s total i h0 h1 h2 hlast
    unfold calculateBonusByProfit
    rw [if_neg h0, if_neg (not_or.mpr ⟨h1, h2⟩), if_pos hlast]
  · intro s total i h0 h1 h2 hlast
    unfold calculateBonusByProfit
    rw [if_neg h0, if_neg (not_or.mpr ⟨h1, h2⟩), if_neg hlast]
  · intro s; simp [calculateBonusByProfit]
  · intro s; simp [calculateBonusByProfit]

/-- Witness for C6 at a concrete input: seller with profit 10, six
sellers in total; rank 5 is last and yields 0, rank 3 yields 5 percent. -/
theorem C6_bonus_rank_rules_witness :
    ((5:ℕ) ≠ 0 ∧ (5:ℕ) ≠ 1 ∧ (5:ℕ) ≠ 2 ∧ (5:ℕ) = 6 - 1) ∧
      calculateBonusByProfit 5 6 exStats0 = 0 :=
  ⟨by decide, C6_bonus_rank_rules.2.2.1 exStats0 6 5 (by decide) (by decide) (by decide)
    (by decide)⟩

/-- Claim C1 (amended): in the aggregator of the second source file every
matched record adds its `total_amount` directly to the seller revenue and
line items never change revenue, so the injected per-item strategy result
feeds only profit; the `src/main.js` variant instead accumulates the
seller revenue from the per-item strategy results and never reads
`total_amount`. -/
theorem C1_revenue_from_total_amount :
    (∀ (products : List Product) (cr : RevenueFn) (r : PurchaseRecord) (s : SellerStats),
        (applyRecord products cr r s).revenue = s.revenue + r.total_amount) ∧
    (∀ (products : List Product) (cr : RevenueFn) (s : SellerStats) (it : PurchaseItem),
        (applyItem products cr s it).revenue = s.revenue) := by
  constructor
  · intro products cr r s; exact (applyRecord_obs products cr r s).2.2.2
  · intro products cr s it; exact (applyItem_fixed products cr s it).2.2.2

/-- Counterexample to C1 as stated: in `src/main.js`, with one seller,
one product of cost 1 and one record whose `total_amount` is 100 holding
one item priced 7, the reported revenue is the strategy value 7, not the
record-level total 100. -/
theorem C1_counterexample :
    (analyzeValid_main exData calculateSimpleRevenue calculateBonusByProfit).map
        SellerReport.revenue = [(7:ℚ)] ∧
      exRecord.total_amount = 100 ∧ (7:ℚ) ≠ 100 := by
  refine ⟨?_, by norm_num [exRecord], by norm_num⟩
  norm_num [analyzeValid_main, exData, exSeller, exProduct, exItem, exRecord, aggregate_main,
    aggregateWith, aggregateStep, initStats, hasSellerId, updateLastWith, applyRecord_main,
    applyItem_main, lookupProduct, addQty, calculateSimpleRevenue, sortByProfitDesc,
    List.insertionSort, List.orderedInsert, rankStage_main, rankStageAux_main, topProducts,
    qtyGE, reportStage, round2, round_eq, calculateBonusByProfit]

/-- Claim C2 (amended): in the second source file the injected bonus is
rounded to 2 decimal places immediately when it is assigned to the
seller, so every assigned bonus is a fixed point of the rounding, the
final report bonus equals the assigned bonus because rounding to 2
decimals is idempotent; in `src/main.js` the assigned bonus is stored
unrounded and is rounded only in the final report. -/
theorem C2_bonus_rounding :
    (∀ (g : BonusFn) (total i : ℕ) (l : List SellerStats),
        (rankStageAux g total i l).map (fun t => t.2.1) =
          (rankStageAux g total i l).map fun t => round2 t.2.1) ∧
    (∀ (g : BonusFn) (sorted : List SellerStats),
        (reportStage (rankStage g sorted)).map SellerReport.bonus =
          (rankStage g sorted).map fun t => t.2.1) ∧
    (∀ x : ℚ, round2 (round2 x) = round2 x) := by
  refine ⟨?_, ?_, round2_round2⟩
  · intro g total i l
    exact (rankStageAux_bonus g total i l).symm
  · intro g sorted
    rw [reportStage_map_bonus]
    exact rankStageAux_bonus g sorted.length 0 sorted

/-- Counterexample to C2 as stated: in `src/main.js` a strategy returning
12.3456 is assigned to the seller unrounded, so the value seen before the
final report is not rounded to 2 decimals. -/
theorem C2_counterexample :
    (rankStage_main (fun _ _ _ => (123456 / 10000 : ℚ)) [exStats0]).map (fun t => t.2.1) =
        [(123456 / 10000 : ℚ)] ∧
      round2 (123456 / 10000 : ℚ) ≠ (123456 / 10000 : ℚ) := by
  constructor
  · norm_num [rankStage_main, rankStageAux_main]
  · norm_num [round2, round_eq]

/-- Claim C3 (amended): the entry point of the second source file
satisfies the failure contract exactly as specified: `InvalidInput` when
the dataset is absent or a collection field is not a non-empty array,
else `MissingOptions` when options is absent or not an object, else
`MissingStrategy` when either strategy is absent or not invokable, else
a report is returned; since the model is a pure function, no accumulator
exists when an error is returned.  The `src/main.js` variant violates the
contract for a truthy non-object options value and for a truthy
non-function strategy. -/
theorem C3_validation_contract :
    ∀ (d : Option RawDataset) (o : OptionsVal RevenueFn BonusFn),
      errorOf (analyzeSalesData d o) = specValidate d o := by
  intro d o
  by_cases hd : datasetBad d = true
  · cases o with
    | absent => simp [analyzeSalesData, specValidate, hd, errorOf]
    | notObject => simp [analyzeSalesData, specValidate, hd, errorOf]
    | object cr cb => cases cr <;> cases cb <;> simp [analyzeSalesData, specValidate, hd, errorOf]
  · have hd' : datasetBad d = false := by revert hd; cases datasetBad d <;> simp
    cases d with
    | none => simp [datasetBad] at hd'
    | some dd =>
      obtain ⟨os, op, orr⟩ := dd
      cases os with
      | none => simp [datasetBad, listFieldBad] at hd'
      | some sellers =>
        cases op with
        | none => simp [datasetBad, listFieldBad] at hd'
        | some products =>
          cases orr with
          | none => simp [datasetBad, listFieldBad] at hd'
          | some records =>
            cases o with
            | absent => simp [analyzeSalesData, specValidate, hd', errorOf]
            | notObject => simp [analyzeSalesData, specValidate, hd', errorOf]
            | object cr cb =>
              cases cr <;> cases cb <;>
                simp [analyzeSalesData, specValidate, hd', errorOf, strategyIsFn]

/-- Counterexample to C3 as stated: on a well-formed dataset the
`src/main.js` validator answers `MissingStrategy`, not `MissingOptions`,
for a truthy non-object options value, and reports no failure at all for
a truthy non-function strategy, while the specified contract demands
`MissingOptions` and `MissingStrategy` respectively. -/
theorem C3_counterexample :
    validate_main (some exRaw) (OptionsVal.notObject : OptionsVal RevenueFn BonusFn) =
        some JSError.MissingStrategy ∧
      specValidate (some exRaw) (OptionsVal.notObject : OptionsVal RevenueFn BonusFn) =
        some JSError.MissingOptions ∧
      validate_main (some exRaw)
          (OptionsVal.object StrategyVal.notInvokable (StrategyVal.fn calculateBonusByProfit) :
            OptionsVal RevenueFn BonusFn) =
        none ∧
      specValidate (some exRaw)
          (OptionsVal.object StrategyVal.notInvokable (StrategyVal.fn calculateBonusByProfit) :
            OptionsVal RevenueFn BonusFn) =
        some JSError.MissingStrategy := by
  refine ⟨?_, ?_, ?_, ?_⟩ <;>
    simp [validate_main, specValidate, datasetBad, listFieldBad, exRaw,
      strategyFalsy, strategyIsFn]

/-- Claim C4: for every dataset whose seller ids are unique, both
implementations return exactly one report entry per input seller: for
the unnamed-file pipeline and for the `src/main.js` pipeline alike, the
output seller ids are a permutation of the input id list and contain no
duplicates. -/
theorem C4_one_entry_per_seller (data : Dataset) (cr : RevenueFn) (cb : BonusFn)
    (hnodup : (data.sellers.map Seller.id).Nodup) :
    (((analyzeValid data cr cb).map SellerReport.seller_id).Perm
        (data.sellers.map Seller.id) ∧
      ((analyzeValid data cr cb).map SellerReport.seller_id).Nodup) ∧
    (((analyzeValid_main data cr cb).map SellerReport.seller_id).Perm
        (data.sellers.map Seller.id) ∧
      ((analyzeValid_main data cr cb).map SellerReport.seller_id).Nodup) := by
  have hperm : ((analyzeValid data cr cb).map SellerReport.seller_id).Perm
      (data.sellers.map Seller.id) := by
    rw [analyzeValid_map_seller_id]
    have h1 := (sortByProfitDesc_perm (aggregate data.products cr (initStats data.sellers)
      data.purchase_records)).map SellerStats.id
    rw [aggregate_map_id, initStats_map_id] at h1
    exact h1
  have hperm2 : ((analyzeValid_main data cr cb).map SellerReport.seller_id).Perm
      (data.sellers.map Seller.id) := by
    rw [analyzeValid_main_map_seller_id]
    have h1 := (sortByProfitDesc_perm (aggregate_main data.products cr
      (initStats data.sellers) data.purchase_records)).map SellerStats.id
    rw [aggregate_main_map_id, initStats_map_id] at h1
    exact h1
  exact ⟨⟨hperm, hperm.nodup_iff.mpr hnodup⟩, ⟨hperm2, hperm2.nodup_iff.mpr hnodup⟩⟩

/-- Witness for C4 at the concrete one-seller dataset, both pipelines. -/
theorem C4_one_entry_per_seller_witness :
    (exData.sellers.map Seller.id).Nodup ∧
      ((((analyzeValid exData calculateSimpleRevenue calculateBonusByProfit).map
            SellerReport.seller_id).Perm (exData.sellers.map Seller.id) ∧
          ((analyzeValid exData calculateSimpleRevenue calculateBonusByProfit).map
            SellerReport.seller_id).Nodup) ∧
        (((analyzeValid_main exData calculateSimpleRevenue calculateBonusByProfit).map
            SellerReport.seller_id).Perm (exData.sellers.map Seller.id) ∧
          ((analyzeValid_main exData calculateSimpleRevenue calculateBonusByProfit).map
            SellerReport.seller_id).Nodup)) :=
  ⟨by decide, C4_one_entry_per_seller exData calculateSimpleRevenue calculateBonusByProfit
    (by decide)⟩

/-- Claim C5: in both implementations the report profits are in
descending order, and the sort is stable: for every profit value the
sellers holding it appear in the sorted accumulator list in exactly the
order of the aggregated list, whose id sequence is the input seller id
sequence; this holds for the unnamed-file pipeline and for the
`src/main.js` pipeline. -/
theorem C5_sorted_by_profit_desc (data : Dataset) (cr : RevenueFn) (cb : BonusFn) :
    (((analyzeValid data cr cb).map SellerReport.profit).Pairwise (fun a b => b ≤ a) ∧
      (∀ q : ℚ,
        (sortByProfitDesc (aggregate data.products cr (initStats data.sellers)
            data.purchase_records)).filter (fun s => decide (s.profit = q)) =
          (aggregate data.products cr (initStats data.sellers)
            data.purchase_records).filter fun s => decide (s.profit = q)) ∧
      (aggregate data.products cr (initStats data.sellers) data.purchase_records).map
          SellerStats.id = data.sellers.map Seller.id) ∧
    (((analyzeValid_main data cr cb).map SellerReport.profit).Pairwise (fun a b => b ≤ a) ∧
      (∀ q : ℚ,
        (sortByProfitDesc (aggregate_main data.products cr (initStats data.sellers)
            data.purchase_records)).filter (fun s => decide (s.profit = q)) =
          (aggregate_main data.products cr (initStats data.sellers)
            data.purchase_records).filter fun s => decide (s.profit = q)) ∧
      (aggregate_main data.products cr (initStats data.sellers) data.purchase_records).map
          SellerStats.id = data.sellers.map Seller.id) := by
  refine ⟨⟨?_, ?_, ?_⟩, ?_, ?_, ?_⟩
  · rw [analyzeValid_map_profit]
    exact sortByProfitDesc_round2_pairwise _
  · intro q
    exact sortByProfitDesc_filter_profit _ q
  · rw [aggregate_map_id, initStats_map_id]
  · rw [analyzeValid_main_map_profit]
    exact sortByProfitDesc_round2_pairwise _
  · intro q
    exact sortByProfitDesc_filter_profit _ q
  · rw [aggregate_main_map_id, initStats_map_id]

theorem any_beq_eq_decide_mem (m : List String) (x : String) :
    (m.any fun y => y == x) = decide (x ∈ m) := by
  induction m with
  | nil => simp
  | cons y m ih =>
    rw [List.any_cons, ih]
    by_cases he : y = x
    · subst he; simp
    · simp [he, Ne.symm he]

theorem hasSellerId_eq_decide_mem (l : List SellerStats) (sid : String) :
    hasSellerId l sid = decide (sid ∈ l.map SellerStats.id) := by
  rw [hasSellerId_eq_any_map, any_beq_eq_decide_mem]

theorem hasSellerId_false_of_not_mem {l : List SellerStats} {sid : String}
    (h : sid ∉ l.map SellerStats.id) : hasSellerId l sid = false := by
  rw [hasSellerId_eq_decide_mem]
  exact decide_eq_false h

theorem aggregateStep_skip (step : PurchaseRecord → SellerStats → SellerStats)
    (st : List SellerStats) (r : PurchaseRecord)
    (h : hasSellerId st r.seller_id = false) : aggregateStep step st r = st := by
  unfold aggregateStep
  rw [h]
  simp

theorem aggregateWith_append_one (step : PurchaseRecord → SellerStats → SellerStats)
    (stats : List SellerStats) (records : List PurchaseRecord) (rec : PurchaseRecord)
    (h : hasSellerId (aggregateWith step stats records) rec.seller_id = false) :
    aggregateWith step stats (records ++ [rec]) = aggregateWith step stats records := by
  unfold aggregateWith at h ⊢
  rw [List.foldl_append]
  simp only [List.foldl_cons, List.foldl_nil]
  exact aggregateStep_skip step _ rec h

theorem lookupProduct_eq_none {products : List Product} {sku : String}
    (h : sku ∉ products.map Product.sku) : lookupProduct products sku = none := by
  unfold lookupProduct
  rw [List.find?_eq_none]
  intro p hp hbeq
  apply h
  have hps : p.sku = sku := eq_of_beq hbeq
  rw [← hps]
  exact List.mem_map_of_mem Product.sku (List.mem_reverse.mp hp)

/-- Claim C7: past validation, in both implementations a record with an
unknown seller id is skipped entirely, with no effect at all on the
final report; an item with an unknown sku is skipped at item level only,
the record-level effects standing; no error is raised, each pipeline
being a total function. -/
theorem C7_unknown_skipped (data : Dataset) (cr : RevenueFn) (cb : BonusFn)
    (rec : PurchaseRecord) (it : PurchaseItem) (r : PurchaseRecord) (s : SellerStats)
    (hrec : rec.seller_id ∉ data.sellers.map Seller.id)
    (hit : it.sku ∉ data.products.map Product.sku) :
    (analyzeValid ⟨data.sellers, data.products, data.purchase_records ++ [rec]⟩ cr cb =
        analyzeValid data cr cb ∧
      applyRecord data.products cr ⟨r.seller_id, r.total_amount, r.items ++ [it]⟩ s =
        applyRecord data.products cr r s ∧
      applyItem data.products cr s it = s) ∧
    (analyzeValid_main ⟨data.sellers, data.products, data.purchase_records ++ [rec]⟩ cr cb =
        analyzeValid_main data cr cb ∧
      applyRecord_main data.products cr ⟨r.seller_id, r.total_amount, r.items ++ [it]⟩ s =
        applyRecord_main data.products cr r s ∧
      applyItem_main data.products cr s it = s) := by
  have hnone : lookupProduct data.products it.sku = none := lookupProduct_eq_none hit
  have happly : ∀ u : SellerStats, applyItem data.products cr u it = u := by
    intro u
    unfold applyItem
    rw [hnone]
  have happly2 : ∀ u : SellerStats, applyItem_main data.products cr u it = u := by
    intro u
    unfold applyItem_main
    rw [hnone]
  refine ⟨⟨?_, ?_, happly s⟩, ?_, ?_, happly2 s⟩
  · have hid : hasSellerId (aggregate data.products cr (initStats data.sellers)
        data.purchase_records) rec.seller_id = false := by
      apply hasSellerId_false_of_not_mem
      rw [aggregate_map_id, initStats_map_id]
      exact hrec
    have key := aggregateWith_append_one (applyRecord data.products cr)
      (initStats data.sellers) data.purchase_records rec hid
    simp only [analyzeValid]
    unfold aggregate
    rw [key]
  · unfold applyRecord
    rw [List.foldl_append]
    simp only [List.foldl_cons, List.foldl_nil]
    rw [happly _]
  · have hid : hasSellerId (aggregate_main data.products cr (initStats data.sellers)
        data.purchase_records) rec.seller_id = false := by
      apply hasSellerId_false_of_not_mem
      rw [aggregate_main_map_id, initStats_map_id]
      exact hrec
    have key := aggregateWith_append_one (applyRecord_main data.products cr)
      (initStats data.sellers) data.purchase_records rec hid
    simp only [analyzeValid_main]
    unfold aggregate_main
    rw [key]
  · unfold applyRecord_main
    rw [List.foldl_append]
    simp only [List.foldl_cons, List.foldl_nil]
    rw [happly2 _]

def badRecord : PurchaseRecord := { seller_id := "zz", total_amount := 5, items := [] }

def badItem : PurchaseItem := { sku := "qq", quantity := 1, sale_price := 1, discount := 0 }

/-- Witness for C7: the unknown seller id "zz" and unknown sku "qq" are
skipped on the concrete one-seller dataset, in both pipelines. -/
theorem C7_unknown_skipped_witness :
    (badRecord.seller_id ∉ exData.sellers.map Seller.id ∧
        badItem.sku ∉ exData.products.map Product.sku) ∧
      ((analyzeValid ⟨exData.sellers, exData.products, exData.purchase_records ++ [badRecord]⟩
            calculateSimpleRevenue calculateBonusByProfit =
          analyzeValid exData calculateSimpleRevenue calculateBonusByProfit ∧
        applyRecord exData.products calculateSimpleRevenue
            ⟨exRecord.seller_id, exRecord.total_amount, exRecord.items ++ [badItem]⟩ exStats0 =
          applyRecord exData.products calculateSimpleRevenue exRecord exStats0 ∧
        applyItem exData.products calculateSimpleRevenue exStats0 badItem = exStats0) ∧
      (analyzeValid_main
            ⟨exData.sellers, exData.products, exData.purchase_records ++ [badRecord]⟩
            calculateSimpleRevenue calculateBonusByProfit =
          analyzeValid_main exData calculateSimpleRevenue calculateBonusByProfit ∧
        applyRecord_main exData.products calculateSimpleRevenue
            ⟨exRecord.seller_id, exRecord.total_amount, exRecord.items ++ [badItem]⟩ exStats0 =
          applyRecord_main exData.products calculateSimpleRevenue exRecord exStats0 ∧
        applyItem_main exData.products calculateSimpleRevenue exStats0 badItem = exStats0)) :=
  ⟨⟨by decide, by decide⟩,
    C7_unknown_skipped exData calculateSimpleRevenue calculateBonusByProfit badRecord badItem
      exRecord exStats0 (by decide) (by decide)⟩

/-- Claim C8: in both implementations the sum of the sales counts over
all report entries equals the number of purchase records whose seller id
matches a known seller. -/
theorem C8_sales_count_sum (data : Dataset) (cr : RevenueFn) (cb : BonusFn) :
    ((analyzeValid data cr cb).map SellerReport.sales_count).sum =
      data.purchase_records.countP (fun r =>
        decide (r.seller_id ∈ data.sellers.map Seller.id)) ∧
    ((analyzeValid_main data cr cb).map SellerReport.sales_count).sum =
      data.purchase_records.countP fun r =>
        decide (r.seller_id ∈ data.sellers.map Seller.id) := by
  have h3 : salesSum (initStats data.sellers) = 0 := by
    unfold salesSum initStats
    induction data.sellers with
    | nil => rfl
    | cons a l ih => simpa using ih
  have h4 : data.purchase_records.countP
      (fun r => hasSellerId (initStats data.sellers) r.seller_id) =
      data.purchase_records.countP
        (fun r => decide (r.seller_id ∈ data.sellers.map Seller.id)) := by
    apply List.countP_congr
    intro r _
    rw [hasSellerId_eq_decide_mem, initStats_map_id]
  constructor
  · rw [analyzeValid_map_sales]
    have h1 : ((sortByProfitDesc (aggregate data.products cr (initStats data.sellers)
          data.purchase_records)).map SellerStats.sales_count).sum =
        salesSum (aggregate data.products cr (initStats data.sellers)
          data.purchase_records) :=
      ((sortByProfitDesc_perm _).map SellerStats.sales_count).sum_eq
    rw [h1]
    have h2 : salesSum (aggregate data.products cr (initStats data.sellers)
          data.purchase_records) =
        salesSum (initStats data.sellers) + data.purchase_records.countP
          (fun r => hasSellerId (initStats data.sellers) r.seller_id) :=
      aggregateWith_salesSum _ (fun r s => (applyRecord_obs data.products cr r s).1)
        (fun r s => (applyRecord_obs data.products cr r s).2.2.1)
        data.purchase_records (initStats data.sellers)
    rw [h2, h3, h4, Nat.zero_add]
  · rw [analyzeValid_main_map_sales]
    have h1 : ((sortByProfitDesc (aggregate_main data.products cr (initStats data.sellers)
          data.purchase_records)).map SellerStats.sales_count).sum =
        salesSum (aggregate_main data.products cr (initStats data.sellers)
          data.purchase_records) :=
      ((sortByProfitDesc_perm _).map SellerStats.sales_count).sum_eq
    rw [h1]
    have h2 : salesSum (aggregate_main data.products cr (initStats data.sellers)
          data.purchase_records) =
        salesSum (initStats data.sellers) + data.purchase_records.countP
          (fun r => hasSellerId (initStats data.sellers) r.seller_id) :=
      aggregateWith_salesSum _ (fun r s => (applyRecord_main_obs data.products cr r s).1)
        (fun r s => (applyRecord_main_obs data.products cr r s).2.2)
        data.purchase_records (initStats data.sellers)
    rw [h2, h3, h4, Nat.zero_add]

/-- Claim C9: in both implementations each report top products list is
exactly `topProducts` of the accumulated per-sku dictionary of the
corresponding seller, and for every dictionary the result has length at
most 10, is sorted by quantity descending, and is the 10-prefix of a
sorted permutation of all accumulated pairs. -/
theorem C9_top_products (data : Dataset) (cr : RevenueFn) (cb : BonusFn) :
    ((analyzeValid data cr cb).map SellerReport.top_products =
      (sortByProfitDesc (aggregate data.products cr (initStats data.sellers)
        data.purchase_records)).map fun s => topProducts s.products_sold) ∧
    ((analyzeValid_main data cr cb).map SellerReport.top_products =
      (sortByProfitDesc (aggregate_main data.products cr (initStats data.sellers)
        data.purchase_records)).map fun s => topProducts s.products_sold) ∧
    (∀ ps : List (String × ℚ),
        (topProducts ps).length ≤ 10 ∧
        ((topProducts ps).map Prod.snd).Pairwise (fun a b => b ≤ a) ∧
        topProducts ps = (List.insertionSort qtyGE ps).take 10 ∧
        (List.insertionSort qtyGE ps).Perm ps) := by
  refine ⟨analyzeValid_map_top data cr cb, analyzeValid_main_map_top data cr cb, ?_⟩
  intro ps
  refine ⟨?_, ?_, rfl, List.perm_insertionSort qtyGE ps⟩
  · unfold topProducts
    rw [List.length_take]
    exact min_le_left _ _
  · have hs : List.Sorted qtyGE (List.insertionSort qtyGE ps) :=
      List.sorted_insertionSort qtyGE ps
    have htake : (topProducts ps).Pairwise qtyGE :=
      List.Pairwise.sublist (List.take_sublist 10 _) hs
    exact List.Pairwise.map _ (fun a b h => h) htake
